import Mathlib

/-
Verification of the isolation-and-hot-upgrade runtime: a shallow embedding of
  - the sleepable-RCU pointer cell         (kernel/src/sync/srcu.rs),
  - the remote-reference smart handle      (domain-lib/rref/src/rref.rs),
  - the dual-path domain proxy             (tcb/src/domain_proxy/empty_device.rs),
  - the upgrade entry point                (tcb/src/domain_helper/syscall.rs).

The embedding is sequential (single caller): kernel synchronization primitives
(SRCU read lock, mutexes, the per-CPU counter) are modelled by explicit state
and by event traces recording which primitive operations were performed and in
which order.  Fallible code returns Except; a panic (Rust unwrap on Err) and a
non-terminating busy-wait are explicit outcome constructors.
-/

/-- Linux error codes used by the modelled code paths. -/
inductive LinuxError
  | EINVAL
  | ENOENT
  | EIO
  | ENOSYS
deriving DecidableEq

/-! ## Shared heap

An RRef block consists of a 64-bit domain-id slot and a value slot
(rref.rs, struct RRef: domain_id_pointer, value_pointer, exist).
The shared heap is modelled as two total maps from addresses: one for the
domain-id (tag) slots and one for the payload slots. -/

/-- State of the shared heap: tag slots and payload slots, addressed by Nat. -/
structure SharedHeapState (V : Type) where
  tag : Nat → Nat
  payload : Nat → V

/-- Model of the RRef handle (rref.rs): the address of the domain-id slot, the
address of the value slot, and the exist flag (the spec calls it moved_out)
that suppresses destruction after ownership was surrendered. -/
structure RRefModel where
  tagAddr : Nat
  valueAddr : Nat
  exist : Bool
deriving DecidableEq

/-- Events emitted by RRef destruction (rref.rs, Drop and CustomDrop impls):
invocation of the payload type custom destructor (the CustomDrop trait method,
distinct from the language-native destructor) and release of the block via
share_heap_dealloc. -/
inductive RRefEvent
  | customDropPayload (addr : Nat)
  | deallocBlock (addr : Nat)
deriving DecidableEq

/-- Model of SharedData::move_to for RRef (rref.rs lines 198-210): read the old
domain id from the tag slot, write the new domain id into the tag slot, return
the old id.  The payload map is untouched. -/
def RRef.move_to (st : SharedHeapState V) (r : RRefModel) (new_domain_id : Nat) :
    SharedHeapState V × Nat :=
  ({ st with tag := fun a => if a = r.tagAddr then new_domain_id else st.tag a },
   st.tag r.tagAddr)

/-- Model of CustomDrop::custom_drop for RRef (rref.rs lines 161-171): if the
exist flag is set, do nothing; otherwise run the payload custom destructor and
then deallocate the block, in that order.  The returned trace records the
emitted operations. -/
def RRef.custom_drop (r : RRefModel) : List RRefEvent :=
  if r.exist then []
  else [RRefEvent.customDropPayload r.valueAddr, RRefEvent.deallocBlock r.valueAddr]

/-- Model of Drop::drop for RRef (rref.rs lines 151-159): if the exist flag is
set, return early; otherwise delegate to custom_drop. -/
def RRef.dropHandle (r : RRefModel) : List RRefEvent :=
  if r.exist then [] else RRef.custom_drop r

/-! ## Type-identity destructor registry

rref.rs keeps a global BTreeMap from TypeId to a type-erased drop function
(static DROP).  We model it as an association list with unique keys; type ids
are Nat, drop functions are an abstract type. -/

/-- Lookup in an association list (models BTreeMap::get). -/
def alistLookup [DecidableEq K] (l : List (K × B)) (k : K) : Option B :=
  match l with
  | [] => none
  | (k2, b) :: rest => if k2 = k then some b else alistLookup rest k

/-- Model of the registration step in RRef::new_with_layout (rref.rs line 80):
DROP.lock().entry(type_id).or_insert(drop_fn) inserts the drop function only
when the type id is absent and leaves an existing entry unchanged. -/
def registerDropFn (reg : List (Nat × D)) (tid : Nat) (f : D) : List (Nat × D) :=
  match alistLookup reg tid with
  | some _ => reg
  | none => (tid, f) :: reg

/-- Outcome of a registry lookup: either the drop function, or a fatal runtime
halt (Rust Option::unwrap panicking on None). -/
inductive FatalOr (D : Type)
  | fatal
  | found (f : D)
deriving DecidableEq

/-- Model of drop_domain_share_data (rref.rs lines 67-71): look the type id up
in the registry and unwrap; an absent type id is a fatal error. -/
def drop_domain_share_data (reg : List (Nat × D)) (tid : Nat) : FatalOr D :=
  match alistLookup reg tid with
  | none => FatalOr.fatal
  | some f => FatalOr.found f

/-- Runtime state threaded through RRef construction: the destructor registry,
the shared heap, a bump-allocation cursor, and the current domain id.  The
shared allocator itself is an external collaborator; allocation failure is a
fatal panic in the source and the model allocator always succeeds. -/
structure RRefRuntime (V D : Type) where
  registry : List (Nat × D)
  heap : SharedHeapState V
  nextAddr : Nat
  currentDomain : Nat

/-- Model of RRef::new_with_layout (rref.rs lines 77-97): register the payload
type destructor (idempotently), allocate a block with a tag slot and a value
slot, write the current domain id into the tag slot, write the value when the
init flag is set, and return a handle with the exist flag cleared. -/
def RRef.new_with_layout (rt : RRefRuntime V D) (tid : Nat) (dropFn : D)
    (v : V) (initFlag : Bool) : RRefRuntime V D × RRefModel :=
  let reg := registerDropFn rt.registry tid dropFn
  let tagA := rt.nextAddr
  let valA := rt.nextAddr + 1
  let tag2 := fun a => if a = tagA then rt.currentDomain else rt.heap.tag a
  let pay2 := fun a =>
    if initFlag then (if a = valA then v else rt.heap.payload a) else rt.heap.payload a
  ({ rt with
      registry := reg
      heap := { tag := tag2, payload := pay2 }
      nextAddr := rt.nextAddr + 2 },
   { tagAddr := tagA, valueAddr := valA, exist := false })

/-! ## Sleepable-RCU pointer cell

kernel/src/sync/srcu.rs wraps a single pointer (crcu_data.data_ptr) plus an
srcu_struct.  The kernel SRCU primitives are external collaborators; the model
records their invocations as events and keeps the pointed-to value directly. -/

/-- Events emitted by the SRCU primitives invoked by SRcuData
(srcu.rs: __srcu_read_lock, __srcu_read_unlock, srcu_dereference,
rcu_assign_pointer, synchronize_srcu). -/
inductive RcuEvent
  | readLock
  | readUnlock
  | dereference
  | assignPointer
  | synchronize
deriving DecidableEq

/-- Model of SRcuData (srcu.rs): the current value behind crcu_data.data_ptr. -/
structure SRcuData (A : Type) where
  dataPtr : A

/-- Model of SRcuData::read (srcu.rs lines 72-98): enter the read-side critical
section, dereference the pointer, apply f, leave the critical section. -/
def SRcuData.read (c : SRcuData A) (f : A → B) : B × List RcuEvent :=
  (f c.dataPtr, [RcuEvent.readLock, RcuEvent.dereference, RcuEvent.readUnlock])

/-- Model of SRcuData::read_directly (srcu.rs lines 112-122): dereference the
pointer and apply f without entering a read-side critical section. -/
def SRcuData.read_directly (c : SRcuData A) (f : A → B) : B × List RcuEvent :=
  (f c.dataPtr, [RcuEvent.dereference])

/-- Model of SRcuData::update (srcu.rs lines 177-204): install the new value
via the assign-pointer primitive, wait for the grace period (synchronize_srcu),
and return ownership of the old value. -/
def SRcuData.update (c : SRcuData A) (data : A) : SRcuData A × A × List RcuEvent :=
  ({ dataPtr := data }, c.dataPtr, [RcuEvent.assignPointer, RcuEvent.synchronize])

/-- Model of SRcuData::update_directly (srcu.rs lines 140-160): install the new
value via the assign-pointer primitive and return ownership of the old value
immediately, with no grace-period wait. -/
def SRcuData.update_directly (c : SRcuData A) (data : A) : SRcuData A × A × List RcuEvent :=
  ({ dataPtr := data }, c.dataPtr, [RcuEvent.assignPointer])

/-! ## Theorems for claims C5, C6, C7, C8, C10 -/

/-- C5: RPC.update(new) installs the new pointer via the assign-pointer
primitive and then waits for prior read-side critical sections (synchronize)
before returning ownership of the old value; RPC.update_directly(new) installs
the new pointer and returns ownership of the old value immediately with no
grace-period wait; in both cases the returned value is exactly the value stored
in the cell before the call. -/
theorem srcu_update_vs_update_directly (c : SRcuData A) (v : A) :
    (SRcuData.update c v).1.dataPtr = v
    ∧ (SRcuData.update c v).2.1 = c.dataPtr
    ∧ (SRcuData.update c v).2.2 = [RcuEvent.assignPointer, RcuEvent.synchronize]
    ∧ (SRcuData.update_directly c v).1.dataPtr = v
    ∧ (SRcuData.update_directly c v).2.1 = c.dataPtr
    ∧ (SRcuData.update_directly c v).2.2 = [RcuEvent.assignPointer]
    ∧ RcuEvent.synchronize ∉ (SRcuData.update_directly c v).2.2 := by
  refine ⟨rfl, rfl, rfl, rfl, rfl, rfl, ?_⟩
  simp [SRcuData.update_directly]

/-- C10: in the sequential embedding, RPC.read(f) and RPC.read_directly(f)
return the same result for every state of the cell and every f — both apply f
to the value currently stored behind the pointer — and the only difference is
that read brackets the dereference-and-apply in a read-side critical
section. -/
theorem srcu_read_refines_read_directly (c : SRcuData A) (f : A → B) :
    (SRcuData.read c f).1 = (SRcuData.read_directly c f).1
    ∧ (SRcuData.read c f).1 = f c.dataPtr
    ∧ (SRcuData.read c f).2 =
        RcuEvent.readLock :: (SRcuData.read_directly c f).2 ++ [RcuEvent.readUnlock] := by
  exact ⟨rfl, rfl, rfl⟩

/-- C6: for every heap, RR handle r and domain ids x and y, r.move_to(x)
followed by r.move_to(y) leaves the tag slot holding y and the second call
returns x; in general move_to(n) writes n into the tag slot and returns the tag
value stored immediately before the call, leaving the payload untouched. -/
theorem rref_move_to_roundtrip (st : SharedHeapState V) (r : RRefModel) (x y n : Nat) :
    (RRef.move_to (RRef.move_to st r x).1 r y).1.tag r.tagAddr = y
    ∧ (RRef.move_to (RRef.move_to st r x).1 r y).2 = x
    ∧ (RRef.move_to st r n).2 = st.tag r.tagAddr
    ∧ (RRef.move_to st r n).1.tag r.tagAddr = n
    ∧ (RRef.move_to st r n).1.payload = st.payload := by
  refine ⟨?_, ?_, rfl, ?_, rfl⟩ <;> simp [RRef.move_to]

/-- C7: when an RRef handle is destroyed, if its exist (moved_out) flag is set
nothing happens — no destructor and no deallocation; otherwise the payload
custom destructor (the CustomDrop trait method, distinct from the
language-native destructor) runs exactly once and then the shared-heap block is
released via dealloc, in that order. -/
theorem rref_drop_semantics (r : RRefModel) :
    (r.exist = true → RRef.dropHandle r = [])
    ∧ (r.exist = false →
        RRef.dropHandle r =
          [RRefEvent.customDropPayload r.valueAddr, RRefEvent.deallocBlock r.valueAddr]
        ∧ (RRef.dropHandle r).count (RRefEvent.customDropPayload r.valueAddr) = 1) := by
  constructor
  · intro h
    simp [RRef.dropHandle, h]
  · intro h
    constructor
    · simp [RRef.dropHandle, RRef.custom_drop, h]
    · simp [RRef.dropHandle, RRef.custom_drop, h, List.count_cons]

/-- Witness for rref_drop_semantics at concrete handles: a moved-out handle
drops to no events; a live handle drops to destructor-then-dealloc. -/
theorem rref_drop_semantics_witness :
    RRef.dropHandle { tagAddr := 0, valueAddr := 1, exist := true } = []
    ∧ RRef.dropHandle { tagAddr := 0, valueAddr := 1, exist := false } =
        [RRefEvent.customDropPayload 1, RRefEvent.deallocBlock 1] :=
  ⟨(rref_drop_semantics { tagAddr := 0, valueAddr := 1, exist := true }).1 rfl,
   ((rref_drop_semantics { tagAddr := 0, valueAddr := 1, exist := false }).2 rfl).1⟩

/-- C8: registration in the type-identity destructor registry is idempotent —
the first RRef::new of a type inserts its type-erased destructor and subsequent
constructions leave the existing entry unchanged — and a destructor lookup for
a type id absent from the registry is a fatal error. -/
theorem drop_registry_idempotent_total (reg : List (Nat × D)) (tid : Nat) (f : D) :
    (alistLookup reg tid = none →
        registerDropFn reg tid f = (tid, f) :: reg
        ∧ alistLookup (registerDropFn reg tid f) tid = some f)
    ∧ (∀ g, alistLookup reg tid = some g → registerDropFn reg tid f = reg)
    ∧ (drop_domain_share_data reg tid = FatalOr.fatal ↔ alistLookup reg tid = none)
    ∧ (∀ (rt : RRefRuntime V D) (v : V) (b : Bool),
        (RRef.new_with_layout rt tid f v b).1.registry = registerDropFn rt.registry tid f) := by
  refine ⟨?_, ?_, ?_, ?_⟩
  · intro h
    refine ⟨?_, ?_⟩
    · simp [registerDropFn, h]
    · simp [registerDropFn, h, alistLookup]
  · intro g h
    simp [registerDropFn, h]
  · constructor
    · intro h
      cases heq : alistLookup reg tid with
      | none => rfl
      | some g => simp [drop_domain_share_data, heq] at h
    · intro h
      simp [drop_domain_share_data, h]
  · intro rt v b
    rfl

/-- Witness for drop_registry_idempotent_total at concrete inputs: first
registration inserts, re-registration leaves the entry unchanged, and the
teardown lookup on an empty registry is fatal. -/
theorem drop_registry_idempotent_total_witness :
    registerDropFn ([] : List (Nat × Nat)) 5 0 = [(5, 0)]
    ∧ registerDropFn [(5, (0 : Nat))] 5 1 = [(5, 0)]
    ∧ drop_domain_share_data ([] : List (Nat × Nat)) 5 = FatalOr.fatal
    ∧ (RRef.new_with_layout
        { registry := ([] : List (Nat × Nat)),
          heap := { tag := fun _ => 0, payload := fun _ => (0 : Nat) },
          nextAddr := 0, currentDomain := 3 } 5 0 7 true).1.registry = [(5, 0)] := by
  refine ⟨?_, ?_, ?_, ?_⟩
  · exact ((drop_registry_idempotent_total (V := Nat) [] 5 0).1 rfl).1
  · exact (drop_registry_idempotent_total (V := Nat) [(5, 0)] 5 1).2.1 0 rfl
  · exact (drop_registry_idempotent_total (V := Nat) [] 5 0).2.2.1.mpr rfl
  · have h4 := (drop_registry_idempotent_total (V := Nat) [] 5 0).2.2.2
      { registry := [], heap := { tag := fun _ => 0, payload := fun _ => (0 : Nat) },
        nextAddr := 0, currentDomain := 3 } 7 true
    have h1 := ((drop_registry_idempotent_total (V := Nat) [] 5 0).1 rfl).1
    exact h4.trans h1

/-! ## Domain proxy

tcb/src/domain_proxy/empty_device.rs.  The proxy wraps an SRcuData over the
domain implementation, a write mutex, a loader mutex, the upgrading flag, and
the per-CPU inflight counter.  An EmptyDeviceDomain implementation is a record
of its methods; read and write act on the shared heap. -/

/-- Model of a Box<dyn EmptyDeviceDomain> implementation: its domain id, the
result of init, and the read/write methods acting on the shared heap
(interface methods used by empty_device.rs). -/
structure EmptyDeviceDomainImpl (V : Type) where
  domainId : Nat
  initResult : Except LinuxError Unit
  readFn : SharedHeapState V → RRefModel → SharedHeapState V × Except LinuxError RRefModel
  writeFn : SharedHeapState V → RRefModel → SharedHeapState V × Except LinuxError Nat

/-- Events emitted by the proxy paths: acquisition and release of the write
mutex, the per-CPU inflight counter increment and decrement on a given cpu,
invocation of the underlying implementation, and the external
free_domain_resource call made during replace. -/
inductive ProxyEvent
  | lockAcquire
  | lockRelease
  | cntInc (cpu : Nat)
  | cntDec (cpu : Nat)
  | implInvoke
  | freeResource (oldId newId : Nat)
deriving DecidableEq

/-- Modelled from the spec: the per-CPU counter primitive LongLongPerCpu
(spec section 4.5 and the per-CPU contract in section 6; the primitive itself
lives outside the analysed sources).  get_with mutates only the shard of the
executing cpu; bumpAt applies a delta to that shard.  A cpu index beyond the
shard list leaves the list unchanged. -/
def bumpAt (c : List Int) (cpu : Nat) (d : Int) : List Int :=
  match c, cpu with
  | [], _ => []
  | x :: xs, 0 => (x + d) :: xs
  | x :: xs, Nat.succ n => x :: bumpAt xs n d

/-- Incrementing then decrementing the same shard restores the counter. -/
theorem bumpAt_restore (c : List Int) (cpu : Nat) :
    bumpAt (bumpAt c cpu 1) cpu (-1) = c := by
  induction c generalizing cpu with
  | nil => rfl
  | cons x xs ih =>
    cases cpu with
    | zero =>
      simp only [bumpAt, List.cons.injEq, and_true]
      omega
    | succ n =>
      simp only [bumpAt, List.cons.injEq, true_and]
      exact ih n

/-- Model of EmptyDeviceDomainProxy (empty_device.rs lines 21-40): the SRCU
cell over the implementation, the held/free state of the write mutex (lock)
and of the loader mutex (domain_loader), the loader record, the upgrading
flag, and the per-CPU inflight counter. -/
structure EmptyDeviceDomainProxy (V : Type) where
  domain : SRcuData (EmptyDeviceDomainImpl V)
  lockHeld : Bool
  loaderLockHeld : Bool
  loader : Nat
  flag : Bool
  counter : List Int

/-- Model of EmptyDeviceDomainProxy::_domain_id (empty_device.rs lines
153-157): read the implementation domain id through read_directly. -/
def EmptyDeviceDomainProxy.domainIdBase (p : EmptyDeviceDomainProxy V) :
    Nat × List ProxyEvent :=
  ((SRcuData.read_directly p.domain (fun d => d.domainId)).1, [ProxyEvent.implInvoke])

/-- Model of EmptyDeviceDomainProxy::_read (empty_device.rs lines 234-260):
inside read_directly, fetch the implementation domain id, retag the argument
to it with move_to recording the old tag, invoke the implementation read, and
on Ok retag the returned handle back to the recorded old tag. -/
def EmptyDeviceDomainProxy.readBase (p : EmptyDeviceDomainProxy V)
    (st : SharedHeapState V) (data : RRefModel) :
    (SharedHeapState V × Except LinuxError RRefModel) × List ProxyEvent :=
  let inner := (SRcuData.read_directly p.domain (fun d =>
      let id := d.domainId
      let m := RRef.move_to st data id
      let r := d.readFn m.1 data
      (r, m.2))).1
  (match inner.1.2 with
   | Except.ok r2 =>
       let back := RRef.move_to inner.1.1 r2 inner.2
       (back.1, Except.ok r2)
   | Except.error e => (inner.1.1, Except.error e),
   [ProxyEvent.implInvoke])

/-- Model of EmptyDeviceDomainProxy::_write (empty_device.rs lines 269-273):
invoke the implementation write through read_directly; the argument is passed
by reference, so no retagging happens. -/
def EmptyDeviceDomainProxy.writeBase (p : EmptyDeviceDomainProxy V)
    (st : SharedHeapState V) (data : RRefModel) :
    (SharedHeapState V × Except LinuxError Nat) × List ProxyEvent :=
  ((SRcuData.read_directly p.domain (fun d => d.writeFn st data)).1,
   [ProxyEvent.implInvoke])

/-- Model of _domain_id_no_lock (empty_device.rs lines 172-190): increment the
inflight shard of the executing cpu, perform the base call, decrement. -/
def EmptyDeviceDomainProxy.domainIdNoLock (p : EmptyDeviceDomainProxy V) (cpu : Nat) :
    Nat × EmptyDeviceDomainProxy V × List ProxyEvent :=
  let c1 := bumpAt p.counter cpu 1
  let r := EmptyDeviceDomainProxy.domainIdBase { p with counter := c1 }
  let c2 := bumpAt c1 cpu (-1)
  (r.1, { p with counter := c2 }, ProxyEvent.cntInc cpu :: r.2 ++ [ProxyEvent.cntDec cpu])

/-- Model of _domain_id_with_lock (empty_device.rs lines 203-217): acquire the
write mutex, perform the base call, release the mutex. -/
def EmptyDeviceDomainProxy.domainIdWithLock (p : EmptyDeviceDomainProxy V) :
    Nat × EmptyDeviceDomainProxy V × List ProxyEvent :=
  let r := EmptyDeviceDomainProxy.domainIdBase p
  (r.1, p, ProxyEvent.lockAcquire :: r.2 ++ [ProxyEvent.lockRelease])

/-- Model of Basic::domain_id for the proxy (empty_device.rs lines 111-123):
dispatch on an atomic load of the upgrading flag. -/
def EmptyDeviceDomainProxy.domain_id (p : EmptyDeviceDomainProxy V) (cpu : Nat) :
    Nat × EmptyDeviceDomainProxy V × List ProxyEvent :=
  if p.flag then EmptyDeviceDomainProxy.domainIdWithLock p
  else EmptyDeviceDomainProxy.domainIdNoLock p cpu

/-- Model of _read_no_lock (empty_device.rs lines 275-284). -/
def EmptyDeviceDomainProxy.readNoLock (p : EmptyDeviceDomainProxy V) (cpu : Nat)
    (st : SharedHeapState V) (data : RRefModel) :
    (SharedHeapState V × Except LinuxError RRefModel) × EmptyDeviceDomainProxy V × List ProxyEvent :=
  let c1 := bumpAt p.counter cpu 1
  let r := EmptyDeviceDomainProxy.readBase { p with counter := c1 } st data
  let c2 := bumpAt c1 cpu (-1)
  (r.1, { p with counter := c2 }, ProxyEvent.cntInc cpu :: r.2 ++ [ProxyEvent.cntDec cpu])

/-- Model of _read_with_lock (empty_device.rs lines 297-302). -/
def EmptyDeviceDomainProxy.readWithLock (p : EmptyDeviceDomainProxy V)
    (st : SharedHeapState V) (data : RRefModel) :
    (SharedHeapState V × Except LinuxError RRefModel) × EmptyDeviceDomainProxy V × List ProxyEvent :=
  let r := EmptyDeviceDomainProxy.readBase p st data
  (r.1, p, ProxyEvent.lockAcquire :: r.2 ++ [ProxyEvent.lockRelease])

/-- Model of EmptyDeviceDomain::read for the proxy (empty_device.rs lines
131-137): dispatch on an atomic load of the upgrading flag. -/
def EmptyDeviceDomainProxy.read (p : EmptyDeviceDomainProxy V) (cpu : Nat)
    (st : SharedHeapState V) (data : RRefModel) :
    (SharedHeapState V × Except LinuxError RRefModel) × EmptyDeviceDomainProxy V × List ProxyEvent :=
  if p.flag then EmptyDeviceDomainProxy.readWithLock p st data
  else EmptyDeviceDomainProxy.readNoLock p cpu st data

/-- Model of _write_no_lock (empty_device.rs lines 286-295). -/
def EmptyDeviceDomainProxy.writeNoLock (p : EmptyDeviceDomainProxy V) (cpu : Nat)
    (st : SharedHeapState V) (data : RRefModel) :
    (SharedHeapState V × Except LinuxError Nat) × EmptyDeviceDomainProxy V × List ProxyEvent :=
  let c1 := bumpAt p.counter cpu 1
  let r := EmptyDeviceDomainProxy.writeBase { p with counter := c1 } st data
  let c2 := bumpAt c1 cpu (-1)
  (r.1, { p with counter := c2 }, ProxyEvent.cntInc cpu :: r.2 ++ [ProxyEvent.cntDec cpu])

/-- Model of _write_with_lock (empty_device.rs lines 304-309). -/
def EmptyDeviceDomainProxy.writeWithLock (p : EmptyDeviceDomainProxy V)
    (st : SharedHeapState V) (data : RRefModel) :
    (SharedHeapState V × Except LinuxError Nat) × EmptyDeviceDomainProxy V × List ProxyEvent :=
  let r := EmptyDeviceDomainProxy.writeBase p st data
  (r.1, p, ProxyEvent.lockAcquire :: r.2 ++ [ProxyEvent.lockRelease])

/-- Model of EmptyDeviceDomain::write for the proxy (empty_device.rs lines
139-145): dispatch on an atomic load of the upgrading flag. -/
def EmptyDeviceDomainProxy.write (p : EmptyDeviceDomainProxy V) (cpu : Nat)
    (st : SharedHeapState V) (data : RRefModel) :
    (SharedHeapState V × Except LinuxError Nat) × EmptyDeviceDomainProxy V × List ProxyEvent :=
  if p.flag then EmptyDeviceDomainProxy.writeWithLock p st data
  else EmptyDeviceDomainProxy.writeNoLock p cpu st data

/-! ## Theorems for claims C3 and C4 -/

/-- C3: for a proxy read call whose RR argument tag initially names the caller
domain id, the proxy moves the argument tag to the implementation domain id
before invoking the implementation read (without touching any payload), and
when the implementation returns Ok the returned RR tag is moved back to the
caller original domain id before the result is handed back; the payload map
handed back is exactly the one the implementation produced — the proxy never
copies payload values. -/
theorem proxy_read_retag_roundtrip (p : EmptyDeviceDomainProxy V)
    (st : SharedHeapState V) (data : RRefModel) (callerId : Nat)
    (h : st.tag data.tagAddr = callerId) :
    ((RRef.move_to st data p.domain.dataPtr.domainId).1).tag data.tagAddr
        = p.domain.dataPtr.domainId
    ∧ ((RRef.move_to st data p.domain.dataPtr.domainId).1).payload = st.payload
    ∧ (∀ st2 r2,
        p.domain.dataPtr.readFn (RRef.move_to st data p.domain.dataPtr.domainId).1 data
            = (st2, Except.ok r2) →
        (EmptyDeviceDomainProxy.readBase p st data).1.2 = Except.ok r2
        ∧ (EmptyDeviceDomainProxy.readBase p st data).1.1.tag r2.tagAddr = callerId
        ∧ (EmptyDeviceDomainProxy.readBase p st data).1.1.payload = st2.payload) := by
  refine ⟨?_, rfl, ?_⟩
  · simp [RRef.move_to]
  · intro st2 r2 heq
    simp only [EmptyDeviceDomainProxy.readBase, SRcuData.read_directly, heq]
    simp [RRef.move_to, h]

/-- Concrete shared heap for witnesses: every tag slot holds domain 3, every
payload slot holds 42. -/
def heapEx : SharedHeapState Nat :=
  { tag := fun _ => 3, payload := fun _ => 42 }

/-- Concrete implementation for witnesses: domain 9, init succeeds, read
echoes its argument handle back, write reports 0 bytes. -/
def echoImpl : EmptyDeviceDomainImpl Nat :=
  { domainId := 9
    initResult := Except.ok ()
    readFn := fun s d => (s, Except.ok d)
    writeFn := fun s _ => (s, Except.ok 0) }

/-- Concrete proxy for witnesses: wraps echoImpl, no lock held, flag false,
two idle CPU shards. -/
def proxyEx : EmptyDeviceDomainProxy Nat :=
  { domain := { dataPtr := echoImpl }
    lockHeld := false
    loaderLockHeld := false
    loader := 0
    flag := false
    counter := [0, 0] }

/-- Concrete proxy in upgrade mode (flag set) for witnesses. -/
def proxyExUp : EmptyDeviceDomainProxy Nat :=
  { proxyEx with flag := true }

/-- Concrete RR argument for witnesses, tagged via heapEx with caller domain 3. -/
def dataEx : RRefModel := { tagAddr := 10, valueAddr := 11, exist := false }

/-- Witness for proxy_read_retag_roundtrip: caller domain 3, implementation
domain 9; on entry the tag slot holds 9, and the echoed result carries tag 3
again. -/
theorem proxy_read_retag_roundtrip_witness :
    ((RRef.move_to heapEx dataEx proxyEx.domain.dataPtr.domainId).1).tag 10 = 9
    ∧ (EmptyDeviceDomainProxy.readBase proxyEx heapEx dataEx).1.2 = Except.ok dataEx
    ∧ (EmptyDeviceDomainProxy.readBase proxyEx heapEx dataEx).1.1.tag 10 = 3 := by
  have h := proxy_read_retag_roundtrip proxyEx heapEx dataEx 3 rfl
  have h3 := h.2.2 (RRef.move_to heapEx dataEx 9).1 dataEx rfl
  exact ⟨h.1, h3.1, h3.2.1⟩

/-- Trace of the base read call: the implementation is invoked exactly once,
whether it returns Ok or Err. -/
theorem readBase_trace (p : EmptyDeviceDomainProxy V) (st : SharedHeapState V)
    (data : RRefModel) :
    (EmptyDeviceDomainProxy.readBase p st data).2 = [ProxyEvent.implInvoke] := rfl

/-- C4: each externally exposed proxy method (domain_id, read, write)
dispatches on the upgrading flag: when the flag is true the call takes the
locked path — write-lock acquisition, one underlying invocation, release —
leaving the proxy state (in particular the counter) unchanged; when the flag
is false the call takes the fast path — inflight increment on the executing
cpu, one underlying invocation, decrement — so each completed fast-path call
restores the counter and leaves its sum unchanged. -/
theorem proxy_dual_path_dispatch (p : EmptyDeviceDomainProxy V) (cpu : Nat)
    (st : SharedHeapState V) (data : RRefModel) :
    (p.flag = true →
      ((EmptyDeviceDomainProxy.domain_id p cpu).2.2
          = [ProxyEvent.lockAcquire, ProxyEvent.implInvoke, ProxyEvent.lockRelease]
        ∧ (EmptyDeviceDomainProxy.domain_id p cpu).2.1 = p)
      ∧ ((EmptyDeviceDomainProxy.read p cpu st data).2.2
          = [ProxyEvent.lockAcquire, ProxyEvent.implInvoke, ProxyEvent.lockRelease]
        ∧ (EmptyDeviceDomainProxy.read p cpu st data).2.1 = p)
      ∧ ((EmptyDeviceDomainProxy.write p cpu st data).2.2
          = [ProxyEvent.lockAcquire, ProxyEvent.implInvoke, ProxyEvent.lockRelease]
        ∧ (EmptyDeviceDomainProxy.write p cpu st data).2.1 = p))
    ∧ (p.flag = false →
      ((EmptyDeviceDomainProxy.domain_id p cpu).2.2
          = [ProxyEvent.cntInc cpu, ProxyEvent.implInvoke, ProxyEvent.cntDec cpu]
        ∧ (EmptyDeviceDomainProxy.domain_id p cpu).2.1.counter = p.counter
        ∧ (EmptyDeviceDomainProxy.domain_id p cpu).2.1.counter.sum = p.counter.sum)
      ∧ ((EmptyDeviceDomainProxy.read p cpu st data).2.2
          = [ProxyEvent.cntInc cpu, ProxyEvent.implInvoke, ProxyEvent.cntDec cpu]
        ∧ (EmptyDeviceDomainProxy.read p cpu st data).2.1.counter = p.counter
        ∧ (EmptyDeviceDomainProxy.read p cpu st data).2.1.counter.sum = p.counter.sum)
      ∧ ((EmptyDeviceDomainProxy.write p cpu st data).2.2
          = [ProxyEvent.cntInc cpu, ProxyEvent.implInvoke, ProxyEvent.cntDec cpu]
        ∧ (EmptyDeviceDomainProxy.write p cpu st data).2.1.counter = p.counter
        ∧ (EmptyDeviceDomainProxy.write p cpu st data).2.1.counter.sum = p.counter.sum)) := by
  constructor
  · intro h
    refine ⟨⟨?_, ?_⟩, ⟨?_, ?_⟩, ⟨?_, ?_⟩⟩ <;>
      simp [EmptyDeviceDomainProxy.domain_id, EmptyDeviceDomainProxy.read,
        EmptyDeviceDomainProxy.write, EmptyDeviceDomainProxy.domainIdWithLock,
        EmptyDeviceDomainProxy.readWithLock, EmptyDeviceDomainProxy.writeWithLock,
        EmptyDeviceDomainProxy.domainIdBase, EmptyDeviceDomainProxy.writeBase,
        readBase_trace, h]
  · intro h
    refine ⟨⟨?_, ?_, ?_⟩, ⟨?_, ?_, ?_⟩, ⟨?_, ?_, ?_⟩⟩ <;>
      simp [EmptyDeviceDomainProxy.domain_id, EmptyDeviceDomainProxy.read,
        EmptyDeviceDomainProxy.write, EmptyDeviceDomainProxy.domainIdNoLock,
        EmptyDeviceDomainProxy.readNoLock, EmptyDeviceDomainProxy.writeNoLock,
        EmptyDeviceDomainProxy.domainIdBase, EmptyDeviceDomainProxy.writeBase,
        readBase_trace, bumpAt_restore, h]

/-- Witness for proxy_dual_path_dispatch at concrete proxies: the upgrading
proxy takes the locked path and the idle proxy takes the fast path, restoring
its counter. -/
theorem proxy_dual_path_dispatch_witness :
    (EmptyDeviceDomainProxy.read proxyExUp 0 heapEx dataEx).2.2
        = [ProxyEvent.lockAcquire, ProxyEvent.implInvoke, ProxyEvent.lockRelease]
    ∧ (EmptyDeviceDomainProxy.read proxyEx 0 heapEx dataEx).2.2
        = [ProxyEvent.cntInc 0, ProxyEvent.implInvoke, ProxyEvent.cntDec 0]
    ∧ (EmptyDeviceDomainProxy.read proxyEx 0 heapEx dataEx).2.1.counter = [0, 0] :=
  ⟨((proxy_dual_path_dispatch proxyExUp 0 heapEx dataEx).1 rfl).2.1.1,
   ((proxy_dual_path_dispatch proxyEx 0 heapEx dataEx).2 rfl).2.1.1,
   ((proxy_dual_path_dispatch proxyEx 0 heapEx dataEx).2 rfl).2.1.2.1⟩

/-! ## Live-replacement protocol and the upgrade entry point

empty_device.rs lines 320-384 (replace) and domain_helper/syscall.rs lines
95-203 (sys_update_domain). -/

/-- Outcome of EmptyDeviceDomainProxy::replace in the sequential embedding:
normal return, a Rust panic (the unwrap on the init result), or a busy-wait
that never terminates (the drain loop with a nonzero inflight sum, or a
self-deadlocking mutex re-acquisition). -/
inductive ReplaceResult
  | ok
  | panicked (e : LinuxError)
  | hang
deriving DecidableEq

/-- Model of EmptyDeviceDomainProxy::replace (empty_device.rs lines 320-384):
acquire the loader mutex and the write mutex, read the old domain id through
the public dispatcher, publish the upgrading flag, drain the inflight counter,
call init on the new implementation and unwrap the result (an Err panics with
both mutexes held and the flag still true), install the new implementation via
update_directly, clear the flag, release the old domain resources keeping
shared blocks (external free_domain_resource, recorded as an event), swap the
loader record and release both mutexes. -/
def EmptyDeviceDomainProxy.replace (p : EmptyDeviceDomainProxy V)
    (new_domain : EmptyDeviceDomainImpl V) (domain_loader : Nat) (cpu : Nat) :
    ReplaceResult × EmptyDeviceDomainProxy V × List ProxyEvent :=
  let p1 := { p with loaderLockHeld := true, lockHeld := true }
  if p1.flag then
    -- the dispatcher would take the locked path and re-acquire the held
    -- write mutex: a self-deadlock in the sequential embedding
    (ReplaceResult.hang, p1, [])
  else
    let d0 := EmptyDeviceDomainProxy.domain_id p1 cpu
    let oldId := d0.1
    let p2 := d0.2.1
    let p3 := { p2 with flag := true }
    if p3.counter.sum = 0 then
      let newDomainId := new_domain.domainId
      match new_domain.initResult with
      | Except.error e => (ReplaceResult.panicked e, p3, d0.2.2)
      | Except.ok _ =>
        let u := SRcuData.update_directly p3.domain new_domain
        let p4 := { p3 with domain := u.1, flag := false }
        let p5 := { p4 with
          loader := domain_loader, lockHeld := false, loaderLockHeld := false }
        (ReplaceResult.ok, p5, d0.2.2 ++ [ProxyEvent.freeResource oldId newDomainId])
    else (ReplaceResult.hang, p3, d0.2.2)

/-- Sentinel empty domain id, u64::MAX (empty_device.rs line 398). -/
def UMAX : Nat := 18446744073709551615

/-- Model of EmptyDeviceDomainEmptyImpl (empty_device.rs lines 387-414): the
placeholder implementation with the sentinel id whose init succeeds and whose
read and write return ENOSYS. -/
def EmptyDeviceDomainEmptyImpl (V : Type) : EmptyDeviceDomainImpl V :=
  { domainId := UMAX
    initResult := Except.ok ()
    readFn := fun s _ => (s, Except.error LinuxError.ENOSYS)
    writeFn := fun s _ => (s, Except.error LinuxError.ENOSYS) }

/-- Record kept per domain in the global DOMAIN_INFO table
(corelib DomainDataInfo: name, type tag, panic counter, file info). -/
structure DomainDataRec where
  name : String
  ty : Nat
  panicCount : Nat
  fileInfo : Nat
deriving DecidableEq

/-- Removal from an association list (models BTreeMap::remove). -/
def alistRemove [DecidableEq K] (l : List (K × B)) (k : K) : List (K × B) :=
  match l with
  | [] => []
  | (k2, b) :: rest => if k2 = k then rest else (k2, b) :: alistRemove rest k

/-- Insertion overwriting any previous binding (models BTreeMap::insert). -/
def alistInsert [DecidableEq K] (l : List (K × B)) (k : K) (b : B) : List (K × B) :=
  (k, b) :: alistRemove l k

/-- In-place update of the binding of an existing key. -/
def alistUpdate [DecidableEq K] (l : List (K × B)) (k : K) (b : B) : List (K × B) :=
  match l with
  | [] => []
  | (k2, b2) :: rest =>
      if k2 = k then (k2, b) :: rest else (k2, b2) :: alistUpdate rest k b

/-- State visible to the upgrade entry point: the registry resolving a domain
name to its proxy (query_domain), the DOMAIN_INFO table keyed by domain id,
the table of loadable domain files, and a fresh-id counter. -/
structure SysState (V : Type) where
  proxies : List (String × EmptyDeviceDomainProxy V)
  domainList : List (Nat × DomainDataRec)
  loadTable : List (String × EmptyDeviceDomainImpl V)
  freshId : Nat

/-- Modelled from the spec: create_domain_or_empty (the creator module is
outside the analysed sources; spec section 4.7 step 3).  The loader builds the
new implementation under a fresh id, and returns the empty placeholder
implementation when the named file cannot be loaded; it never fails.  The
third component is the loader record. -/
def create_domain_or_empty (st : SysState V) (file : String) :
    Nat × EmptyDeviceDomainImpl V × Nat :=
  match alistLookup st.loadTable file with
  | some impl => (st.freshId, impl, st.freshId)
  | none => (st.freshId, EmptyDeviceDomainEmptyImpl V, st.freshId)

/-- Outcome of the upgrade syscall in the sequential embedding: a returned
LinuxResult, a kernel panic propagated from replace, or divergence. -/
inductive SysOutcome
  | ret (r : Except LinuxError Unit)
  | kernelPanic (e : LinuxError)
  | hung

/-- Model of DomainSyscall::sys_update_domain (syscall.rs lines 95-203) for a
supported kind: resolve the old name via query_domain (unknown name returns
EINVAL), read the old domain id through the proxy, build the new
implementation with create_domain_or_empty, call replace on the proxy, and on
success remove the old id from DOMAIN_INFO and insert a record under the new
id reusing the old name with the panic counter reset to zero. -/
def sys_update_domain (st : SysState V) (old_domain_name new_domain_name : String)
    (ty : Nat) (cpu : Nat) : SysOutcome × SysState V :=
  match alistLookup st.proxies old_domain_name with
  | none => (SysOutcome.ret (Except.error LinuxError.EINVAL), st)
  | some p =>
    let d0 := EmptyDeviceDomainProxy.domain_id p cpu
    let oldDomainId := d0.1
    let p0 := d0.2.1
    let c := create_domain_or_empty st new_domain_name
    let newId := c.1
    let newImpl := c.2.1
    let loader := c.2.2
    let r := EmptyDeviceDomainProxy.replace p0 newImpl loader cpu
    match r.1 with
    | ReplaceResult.panicked e => (SysOutcome.kernelPanic e, st)
    | ReplaceResult.hang => (SysOutcome.hung, st)
    | ReplaceResult.ok =>
      let newRec : DomainDataRec :=
        { name := old_domain_name, ty := ty, panicCount := 0, fileInfo := loader }
      (SysOutcome.ret (Except.ok ()),
       { st with
          proxies := alistUpdate st.proxies old_domain_name r.2.1
          domainList := alistInsert (alistRemove st.domainList oldDomainId) newId newRec
          freshId := st.freshId + 1 })

/-- Increment of the panic counter of one entry of the DOMAIN_INFO table
(syscall.rs lines 57-60: domain_list.get_mut(&domain_id) followed by
panic_count += 1; a missing entry is silently skipped by Option::map). -/
def bumpPanicCount (dl : List (Nat × DomainDataRec)) (id : Nat) :
    List (Nat × DomainDataRec) :=
  match dl with
  | [] => []
  | (k, r) :: rest =>
      if k = id then (k, { r with panicCount := r.panicCount + 1 }) :: rest
      else (k, r) :: bumpPanicCount rest id

/-- Model of DomainSyscall::sys_backtrace (syscall.rs lines 56-62): bump the
panic counter of the owning domain entry, then unwind, which clears the
BLK_CRASH flag.  The pair is the new DOMAIN_INFO table and BLK_CRASH value. -/
def sys_backtrace (dl : List (Nat × DomainDataRec)) (_blkCrash : Bool)
    (domain_id : Nat) : List (Nat × DomainDataRec) × Bool :=
  (bumpPanicCount dl domain_id, false)

/-- Model of DomainSyscall::blk_crash_trick (syscall.rs lines 64-66): an
atomic load of the BLK_CRASH flag; no state is modified.  The result is the
returned Bool together with the unchanged DOMAIN_INFO table and flag. -/
def blk_crash_trick (dl : List (Nat × DomainDataRec)) (blkCrash : Bool) :
    Bool × List (Nat × DomainDataRec) × Bool :=
  (blkCrash, dl, blkCrash)

/-! ## Theorems for claims C1, C2 and C9 -/

/-- When the upgrading flag is false the dispatcher takes the fast path and
restores the proxy state completely. -/
theorem domain_id_flag_false (p : EmptyDeviceDomainProxy V) (cpu : Nat)
    (h : p.flag = false) :
    EmptyDeviceDomainProxy.domain_id p cpu
      = (p.domain.dataPtr.domainId, p,
         [ProxyEvent.cntInc cpu, ProxyEvent.implInvoke, ProxyEvent.cntDec cpu]) := by
  obtain ⟨dom, lh, llh, ld, fl, cnt⟩ := p
  have h2 : fl = false := h
  subst h2
  simp [EmptyDeviceDomainProxy.domain_id, EmptyDeviceDomainProxy.domainIdNoLock,
    EmptyDeviceDomainProxy.domainIdBase, SRcuData.read_directly, bumpAt_restore]

/-- Characterization of replace on a quiescent proxy (flag clear, inflight sum
zero): an init failure panics with both mutexes held, the flag still true and
the old implementation still installed; an init success returns ok with the
new implementation installed, the flag cleared, both mutexes released and the
loader record swapped. -/
theorem replace_spec (p : EmptyDeviceDomainProxy V) (ni : EmptyDeviceDomainImpl V)
    (ld cpu : Nat) (hf : p.flag = false) (hc : p.counter.sum = 0) :
    (∀ e, ni.initResult = Except.error e →
        (EmptyDeviceDomainProxy.replace p ni ld cpu).1 = ReplaceResult.panicked e
        ∧ (EmptyDeviceDomainProxy.replace p ni ld cpu).2.1.flag = true
        ∧ (EmptyDeviceDomainProxy.replace p ni ld cpu).2.1.lockHeld = true
        ∧ (EmptyDeviceDomainProxy.replace p ni ld cpu).2.1.loaderLockHeld = true
        ∧ (EmptyDeviceDomainProxy.replace p ni ld cpu).2.1.domain = p.domain)
    ∧ (ni.initResult = Except.ok () →
        (EmptyDeviceDomainProxy.replace p ni ld cpu).1 = ReplaceResult.ok
        ∧ (EmptyDeviceDomainProxy.replace p ni ld cpu).2.1.flag = false
        ∧ (EmptyDeviceDomainProxy.replace p ni ld cpu).2.1.lockHeld = false
        ∧ (EmptyDeviceDomainProxy.replace p ni ld cpu).2.1.loaderLockHeld = false
        ∧ (EmptyDeviceDomainProxy.replace p ni ld cpu).2.1.domain.dataPtr = ni
        ∧ (EmptyDeviceDomainProxy.replace p ni ld cpu).2.1.loader = ld) := by
  obtain ⟨dom, lh, llh, ld2, fl, cnt⟩ := p
  have hf2 : fl = false := hf
  have hc2 : cnt.sum = 0 := hc
  subst hf2
  have hd := domain_id_flag_false (V := V) ⟨dom, true, true, ld2, false, cnt⟩ cpu rfl
  constructor
  · intro e he
    simp [EmptyDeviceDomainProxy.replace, hd, hc2, he]
  · intro he
    simp [EmptyDeviceDomainProxy.replace, hd, hc2, he, SRcuData.update_directly]

/-- Concrete old implementation for the replace scenarios: domain 7, init ok,
read echoes, write reports 0 bytes. -/
def oldImplEx : EmptyDeviceDomainImpl Nat :=
  { domainId := 7
    initResult := Except.ok ()
    readFn := fun s d => (s, Except.ok d)
    writeFn := fun s _ => (s, Except.ok 0) }

/-- Concrete new implementation whose init fails with EIO. -/
def badInitImpl : EmptyDeviceDomainImpl Nat :=
  { domainId := 9
    initResult := Except.error LinuxError.EIO
    readFn := fun s d => (s, Except.ok d)
    writeFn := fun s _ => (s, Except.ok 0) }

/-- Concrete quiescent proxy wrapping oldImplEx: no mutex held, flag clear,
two idle CPU shards. -/
def proxyOld : EmptyDeviceDomainProxy Nat :=
  { domain := { dataPtr := oldImplEx }
    lockHeld := false
    loaderLockHeld := false
    loader := 0
    flag := false
    counter := [0, 0] }

/-- C1 (code bug): when the new implementation init fails during replace, the
upgrade does NOT abort cleanly — the source unwraps the init result and
panics at a point where the upgrading flag is still published true and both
the write mutex and the loader mutex are still held, and no error value is
returned to the caller.  Only the last part of the claim holds: the old
implementation is still the one installed in the RCU pointer cell. -/
theorem replace_init_failure_panics :
    (EmptyDeviceDomainProxy.replace proxyOld badInitImpl 1 0).1
        = ReplaceResult.panicked LinuxError.EIO
    ∧ (EmptyDeviceDomainProxy.replace proxyOld badInitImpl 1 0).2.1.flag = true
    ∧ (EmptyDeviceDomainProxy.replace proxyOld badInitImpl 1 0).2.1.lockHeld = true
    ∧ (EmptyDeviceDomainProxy.replace proxyOld badInitImpl 1 0).2.1.loaderLockHeld = true
    ∧ (EmptyDeviceDomainProxy.replace proxyOld badInitImpl 1 0).2.1.domain.dataPtr.domainId
        = 7 :=
  ⟨rfl, rfl, rfl, rfl, rfl⟩

/-- C2 (amended): sys_update_domain returns EINVAL when the old domain name
is unknown; when the new domain file cannot be loaded the loader substitutes
the empty placeholder implementation and the call returns Ok, not ENOENT;
when the loaded implementation init fails, replace panics instead of
returning EIO; and in the remaining supported cases the call returns Ok. -/
theorem sys_update_domain_error_codes (st : SysState V)
    (oldName newFile : String) (ty cpu : Nat) :
    (alistLookup st.proxies oldName = none →
        sys_update_domain st oldName newFile ty cpu
          = (SysOutcome.ret (Except.error LinuxError.EINVAL), st))
    ∧ (∀ p, alistLookup st.proxies oldName = some p →
        p.flag = false → p.counter.sum = 0 →
        (alistLookup st.loadTable newFile = none →
            (sys_update_domain st oldName newFile ty cpu).1
              = SysOutcome.ret (Except.ok ()))
        ∧ (∀ impl, alistLookup st.loadTable newFile = some impl →
            (impl.initResult = Except.ok () →
                (sys_update_domain st oldName newFile ty cpu).1
                  = SysOutcome.ret (Except.ok ()))
            ∧ (∀ e, impl.initResult = Except.error e →
                (sys_update_domain st oldName newFile ty cpu).1
                  = SysOutcome.kernelPanic e))) := by
  constructor
  · intro h
    simp [sys_update_domain, h]
  · intro p hp hf hc
    have hd := domain_id_flag_false p cpu hf
    constructor
    · intro hl
      have hr := (replace_spec p (EmptyDeviceDomainEmptyImpl V) st.freshId cpu hf hc).2 rfl
      simp [sys_update_domain, hp, hd, create_domain_or_empty, hl, hr.1]
    · intro impl hi
      constructor
      · intro he
        have hr := (replace_spec p impl st.freshId cpu hf hc).2 he
        simp [sys_update_domain, hp, hd, create_domain_or_empty, hi, hr.1]
      · intro e he
        have hr := (replace_spec p impl st.freshId cpu hf hc).1 e he
        simp [sys_update_domain, hp, hd, create_domain_or_empty, hi, hr.1]

/-- Concrete syscall state for the upgrade scenarios: one registered domain
named nd behind proxyOld, and a load table with one good and one bad image. -/
def stEx : SysState Nat :=
  { proxies := [("nd", proxyOld)]
    domainList := [(7, { name := "nd", ty := 1, panicCount := 0, fileInfo := 0 })]
    loadTable := [("good.img", echoImpl), ("bad.img", badInitImpl)]
    freshId := 20 }

/-- Witness for sys_update_domain_error_codes at stEx: unknown old name gives
EINVAL, a missing file still succeeds, a good image succeeds, and an image
whose init fails panics the kernel with no EIO returned. -/
theorem sys_update_domain_error_codes_witness :
    sys_update_domain stEx "missing" "good.img" 1 0
        = (SysOutcome.ret (Except.error LinuxError.EINVAL), stEx)
    ∧ (sys_update_domain stEx "nd" "absent.img" 1 0).1 = SysOutcome.ret (Except.ok ())
    ∧ (sys_update_domain stEx "nd" "good.img" 1 0).1 = SysOutcome.ret (Except.ok ())
    ∧ (sys_update_domain stEx "nd" "bad.img" 1 0).1 = SysOutcome.kernelPanic LinuxError.EIO := by
  refine ⟨?_, ?_, ?_, ?_⟩
  · exact (sys_update_domain_error_codes stEx "missing" "good.img" 1 0).1 rfl
  · exact ((sys_update_domain_error_codes stEx "nd" "absent.img" 1 0).2
      proxyOld rfl rfl rfl).1 rfl
  · exact (((sys_update_domain_error_codes stEx "nd" "good.img" 1 0).2
      proxyOld rfl rfl rfl).2 echoImpl rfl).1 rfl
  · exact (((sys_update_domain_error_codes stEx "nd" "bad.img" 1 0).2
      proxyOld rfl rfl rfl).2 badInitImpl rfl).2 LinuxError.EIO rfl

/-- Counterexample for C2 as stated: at stEx the file absent.img cannot be
loaded, yet sys_update_domain returns Ok — not ENOENT; and for bad.img, whose
implementation init fails, the call panics the kernel instead of returning
EIO. -/
theorem sys_update_domain_no_enoent :
    alistLookup stEx.loadTable "absent.img" = none
    ∧ (sys_update_domain stEx "nd" "absent.img" 1 0).1 = SysOutcome.ret (Except.ok ())
    ∧ (sys_update_domain stEx "nd" "absent.img" 1 0).1
        ≠ SysOutcome.ret (Except.error LinuxError.ENOENT)
    ∧ (sys_update_domain stEx "nd" "bad.img" 1 0).1 = SysOutcome.kernelPanic LinuxError.EIO
    ∧ (sys_update_domain stEx "nd" "bad.img" 1 0).1
        ≠ SysOutcome.ret (Except.error LinuxError.EIO) := by
  refine ⟨rfl, rfl, ?_, rfl, ?_⟩
  · rw [show (sys_update_domain stEx "nd" "absent.img" 1 0).1
        = SysOutcome.ret (Except.ok ()) from rfl]
    simp
  · rw [show (sys_update_domain stEx "nd" "bad.img" 1 0).1
        = SysOutcome.kernelPanic LinuxError.EIO from rfl]
    simp

/-- Looking up a key after bumping its panic counter yields the bumped
record. -/
theorem alistLookup_bumpPanicCount (dl : List (Nat × DomainDataRec)) (id : Nat)
    (r : DomainDataRec) (h : alistLookup dl id = some r) :
    alistLookup (bumpPanicCount dl id) id
      = some { r with panicCount := r.panicCount + 1 } := by
  induction dl with
  | nil => simp [alistLookup] at h
  | cons hd tl ih =>
    obtain ⟨k, b⟩ := hd
    by_cases hk : k = id
    · subst hk
      simp [alistLookup] at h
      subst h
      simp [bumpPanicCount, alistLookup]
    · simp [alistLookup, hk] at h
      simp [bumpPanicCount, alistLookup, hk]
      exact ih h

/-- C9 (amended): sys_backtrace increments the panic counter of the owning
domain registry entry; blk_crash_trick only loads the BLK_CRASH flag and
modifies neither the registry nor the flag; and the proxy performs no retry of
a user call — every dispatcher path invokes the underlying implementation
exactly once, and an implementation error is surfaced unchanged to the
caller. -/
theorem panic_counter_semantics (dl : List (Nat × DomainDataRec)) (b : Bool)
    (id : Nat) (r : DomainDataRec) (p : EmptyDeviceDomainProxy V) (cpu : Nat)
    (st : SharedHeapState V) (data : RRefModel) :
    blk_crash_trick dl b = (b, dl, b)
    ∧ (alistLookup dl id = some r →
        alistLookup (sys_backtrace dl b id).1 id
          = some { r with panicCount := r.panicCount + 1 })
    ∧ (EmptyDeviceDomainProxy.read p cpu st data).2.2.count ProxyEvent.implInvoke = 1
    ∧ (EmptyDeviceDomainProxy.write p cpu st data).2.2.count ProxyEvent.implInvoke = 1
    ∧ (EmptyDeviceDomainProxy.domain_id p cpu).2.2.count ProxyEvent.implInvoke = 1
    ∧ (∀ st2 e,
        p.domain.dataPtr.readFn (RRef.move_to st data p.domain.dataPtr.domainId).1 data
            = (st2, Except.error e) →
        (EmptyDeviceDomainProxy.readBase p st data).1.2 = Except.error e) := by
  refine ⟨rfl, ?_, ?_, ?_, ?_, ?_⟩
  · intro h
    exact alistLookup_bumpPanicCount dl id r h
  · cases hf : p.flag <;>
      simp [EmptyDeviceDomainProxy.read, hf, EmptyDeviceDomainProxy.readNoLock,
        EmptyDeviceDomainProxy.readWithLock, readBase_trace, List.count_cons]
  · cases hf : p.flag <;>
      simp [EmptyDeviceDomainProxy.write, hf, EmptyDeviceDomainProxy.writeNoLock,
        EmptyDeviceDomainProxy.writeWithLock, EmptyDeviceDomainProxy.writeBase,
        List.count_cons]
  · cases hf : p.flag <;>
      simp [EmptyDeviceDomainProxy.domain_id, hf, EmptyDeviceDomainProxy.domainIdNoLock,
        EmptyDeviceDomainProxy.domainIdWithLock, EmptyDeviceDomainProxy.domainIdBase,
        List.count_cons]
  · intro st2 e heq
    simp only [EmptyDeviceDomainProxy.readBase, SRcuData.read_directly, heq]

/-- Concrete DOMAIN_INFO record for the panic-counter scenarios. -/
def recEx : DomainDataRec := { name := "nd", ty := 1, panicCount := 0, fileInfo := 0 }

/-- Witness for panic_counter_semantics at a concrete registry and proxy:
sys_backtrace bumps the counter of domain 7 from 0 to 1, and a fast-path proxy
read invokes the implementation exactly once. -/
theorem panic_counter_semantics_witness :
    alistLookup (sys_backtrace [(7, recEx)] true 7).1 7
        = some { recEx with panicCount := 1 }
    ∧ (EmptyDeviceDomainProxy.read proxyEx 0 heapEx dataEx).2.2.count
        ProxyEvent.implInvoke = 1 := by
  have h := panic_counter_semantics [(7, recEx)] true 7 recEx proxyEx 0 heapEx dataEx
  exact ⟨h.2.1 rfl, h.2.2.1⟩

/-- Counterexample for C9 as stated: blk_crash_trick does not increment any
panic counter — it leaves the registry unchanged, so the entry of domain 7
still has panic count 0, not 1. -/
theorem blk_crash_trick_no_increment :
    (blk_crash_trick [(7, recEx)] true).2.1 = [(7, recEx)]
    ∧ alistLookup (blk_crash_trick [(7, recEx)] true).2.1 7 = some recEx
    ∧ recEx.panicCount = 0
    ∧ alistLookup (blk_crash_trick [(7, recEx)] true).2.1 7
        ≠ some { recEx with panicCount := recEx.panicCount + 1 } := by
  refine ⟨rfl, rfl, rfl, ?_⟩
  intro h
  rw [show alistLookup (blk_crash_trick [(7, recEx)] true).2.1 7 = some recEx from rfl] at h
  simp [recEx] at h
